import Mathlib

/-!
Verification of the webmesh fyne-app daemon core: the privileged helper
daemon (internal/daemon/server.go), the mesh connection factory
(internal/daemon/store.go), the error model (internal/daemon/types.go)
and the client facade (the daemon client revisions).

The Go code is shallowly embedded: every operation becomes a pure Lean
function over explicit state, with the outcomes of external collaborators
(the mesh engine, profile config loading, JSON decoding, the socket dial)
passed in as parameters describing what those collaborators would return.
-/

namespace Webmesh

/-- Go error values as they appear in the daemon packages.  Go compares
errors by interface identity (`err == errNotConnected`), which the
constructors model: the sentinel `errNotConnected` is its own constructor,
a `daemonError{Message}` reconstructed from a response body is `daemonMsg`,
and `fmt.Errorf("ctx: %w", e)` wrapping is `wrap`.  `deadlineExceeded` is
`context.DeadlineExceeded`, `fsNotExist` is an `os.Stat` not-exist error,
and `external` stands for any other collaborator error. -/
inductive GoErr where
  | notConnected : GoErr
  | daemonMsg (message : String) : GoErr
  | wrap (ctx : String) (inner : GoErr) : GoErr
  | deadlineExceeded : GoErr
  | fsNotExist : GoErr
  | external (message : String) : GoErr
deriving DecidableEq, Repr

/-- The Go `Error()` method of each error value.  `errNotConnected` is
`errors.New("not connected")` (types.go line 55); a wrapped error renders
as `"ctx: " + inner.Error()` per `fmt.Errorf` with `%w`. -/
def GoErr.errorMessage : GoErr → String
  | .notConnected => "not connected"
  | .daemonMsg m => m
  | .wrap c e => c ++ ": " ++ e.errorMessage
  | .deadlineExceeded => "context deadline exceeded"
  | .fsNotExist => "file does not exist"
  | .external m => m

/-- Result of running a Go expression that may panic (calling a method on
a nil interface does). -/
inductive PanicOr (α : Type) where
  | panicked (msg : String) : PanicOr α
  | ok (val : α) : PanicOr α
deriving DecidableEq, Repr

/-- Embedding of `IsNotConnected` (types.go lines 23-25):
`return err == errNotConnected || err.Error() == errNotConnected.Error()`.
A Go `error` is a nilable interface, hence the `Option`.  Go `||` is
short-circuiting: the identity comparison is evaluated first, and only
when it is false is `err.Error()` called — which panics when `err` is the
nil interface. -/
def IsNotConnected (err : Option GoErr) : PanicOr Bool :=
  if err = some GoErr.notConnected then PanicOr.ok true
  else
    match err with
    | none => PanicOr.panicked "invalid memory address or nil pointer dereference"
    | some e => PanicOr.ok (e.errorMessage = GoErr.notConnected.errorMessage)

/-- Embedding of `ConnectOptions` (types.go lines 28-52).  `ConnectTimeout`
is a Go `int` in seconds; its doc comment reads "If 0, a default timeout
of 30 seconds is used." -/
structure ConnectOptions where
  profile : String
  interfaceName : String
  forceTUN : Bool
  listenPort : Nat
  raftPort : Nat
  grpcPort : Nat
  noIPv4 : Bool
  noIPv6 : Bool
  localDNS : Bool
  localDNSPort : Nat
  connectTimeout : Int
deriving DecidableEq, Repr

/-- Interface metrics payload (device name plus cumulative byte counters),
as returned by the engine's `WireGuard().Metrics()`. -/
structure InterfaceMetrics where
  deviceName : String
  totalTransmitBytes : Nat
  totalReceiveBytes : Nat
deriving DecidableEq, Repr

/-- Behaviour of one mesh-engine instance (the external collaborator the
factory drives through `store.New` / `Open` / `ReadyNotify` / `Close` /
`WireGuard().Metrics()`).  `id` identifies the handle so that close calls
on distinct handles can be told apart; `readySeconds` is the time at which
`ReadyNotify` would fire; the error fields say what each call returns. -/
structure Engine where
  id : Nat
  newErr : Option GoErr
  openErr : Option GoErr
  readySeconds : Nat
  closeErr : Option GoErr
  metricsErr : Option GoErr
  metrics : InterfaceMetrics
deriving DecidableEq, Repr

/-- Observable calls made on engine handles during a handler run. -/
inductive Ev where
  | openCall (id : Nat)
  | closeCall (id : Nat)
deriving DecidableEq, Repr

/-- Profile context entry resolved by `cfg.GetContext` (external). -/
structure CtxCfg where
  user : String
  cluster : String

/-- User credential set resolved by `cfg.GetUser` (external). -/
structure UserCreds where
  basicAuthUsername : String
  basicAuthPassword : String
  ldapUsername : String
  ldapPassword : String
  clientCertificateData : String
  clientKeyData : String

/-- Cluster TLS policy resolved by `cfg.GetCluster` (external). -/
structure ClusterCfg where
  insecure : Bool
  certificateAuthorityData : String
  tlsSkipVerify : Bool
  tlsVerifyChainOnly : Bool

/-- The profile configuration object (external collaborator): lookup
tables from names to contexts, users and clusters. -/
structure Config where
  getContext : String → CtxCfg
  getUser : String → UserCreds
  getCluster : String → ClusterCfg

/-- Basic auth options attached to the engine options. -/
structure BasicAuthOptions where
  username : String
  password : String
deriving DecidableEq, Repr

/-- LDAP auth options attached to the engine options. -/
structure LDAPAuthOptions where
  username : String
  password : String
deriving DecidableEq, Repr

/-- Mutual-TLS options attached to the engine options. -/
structure MTLSOptions where
  certData : String
  keyData : String
deriving DecidableEq, Repr

/-- Credential section of the engine options. -/
structure AuthOptions where
  basic : Option BasicAuthOptions
  ldap : Option LDAPAuthOptions
  mtls : Option MTLSOptions
deriving DecidableEq, Repr

/-- TLS section of the engine options. -/
structure TLSOptions where
  insecure : Bool
  caData : String
  insecureSkipVerify : Bool
  verifyChainOnly : Bool
deriving DecidableEq, Repr

/-- The engine option struct built by `newStoreOptions` (store.go lines
52-104).  Durations are held in seconds. -/
structure StoreOptions where
  raftInMemory : Bool
  raftListenAddress : String
  raftLeaveOnShutdown : Bool
  raftShutdownTimeoutSec : Int
  meshNoIPv4 : Bool
  meshNoIPv6 : Bool
  meshGRPCPort : Int
  meshJoinTimeoutSec : Int
  wgInterfaceName : String
  wgListenPort : Int
  wgForceTUN : Bool
  wgPersistentKeepAliveSec : Int
  auth : AuthOptions
  tls : TLSOptions
deriving DecidableEq, Repr

/-- Embedding of `newStoreOptions` (store.go lines 52-104).  `base` is the
result of the external `store.NewOptions()`.  In Go the `opts` parameter
is a by-value copy of the caller's struct, so the reassignment
`opts.ConnectTimeout = 30` (lines 65-67) mutates only the local copy: it
is modelled by the local `defaultedTimeout`, which feeds only
`Mesh.JoinTimeout` (line 68) and is never seen by the caller. -/
def newStoreOptions (base : StoreOptions) (cfg : Config) (opts : ConnectOptions) : StoreOptions :=
  let defaultedTimeout : Int :=
    if opts.connectTimeout ≤ 0 then 30 else opts.connectTimeout
  let pctx := cfg.getContext opts.profile
  let user := cfg.getUser pctx.user
  let cluster := cfg.getCluster pctx.cluster
  let auth0 := base.auth
  let auth1 :=
    if user.basicAuthPassword ≠ "" ∧ user.basicAuthUsername ≠ "" then
      { auth0 with basic := some ⟨user.basicAuthUsername, user.basicAuthPassword⟩ }
    else auth0
  let auth2 :=
    if user.ldapPassword ≠ "" ∧ user.ldapUsername ≠ "" then
      { auth1 with ldap := some ⟨user.ldapUsername, user.ldapPassword⟩ }
    else auth1
  let auth3 :=
    if user.clientKeyData ≠ "" ∧ user.clientCertificateData ≠ "" then
      { auth2 with mtls := some ⟨user.clientCertificateData, user.clientKeyData⟩ }
    else auth2
  let tls0 := base.tls
  let tlsFinal :=
    if cluster.insecure then { tls0 with insecure := true }
    else
      let t1 :=
        if cluster.certificateAuthorityData ≠ "" then
          { tls0 with caData := cluster.certificateAuthorityData }
        else tls0
      let t2 := if cluster.tlsSkipVerify then { t1 with insecureSkipVerify := true } else t1
      if cluster.tlsVerifyChainOnly then { t2 with verifyChainOnly := true } else t2
  { base with
    raftInMemory := true
    raftListenAddress := ":" ++ toString opts.raftPort
    raftLeaveOnShutdown := true
    raftShutdownTimeoutSec := 10
    meshNoIPv4 := opts.noIPv4
    meshNoIPv6 := opts.noIPv6
    meshGRPCPort := opts.grpcPort
    wgInterfaceName := opts.interfaceName
    wgListenPort := opts.listenPort
    wgForceTUN := opts.forceTUN
    wgPersistentKeepAliveSec := 10
    meshJoinTimeoutSec := defaultedTimeout
    auth := auth3
    tls := tlsFinal }

/-- Outcome of one `newStore` run: the returned handle (`none` on error),
the returned error, the engine calls made, and whether a close failure was
logged on the timeout path. -/
structure NewStoreResult where
  store : Option Engine
  error : Option GoErr
  events : List Ev
  loggedCloseFailure : Bool
deriving DecidableEq, Repr

/-- Embedding of `newStore` (store.go lines 29-50).  After `store.New` and
`st.Open`, the code runs
`ctx, cancel := context.WithTimeout(ctx, time.Second*time.Duration(opts.ConnectTimeout))`
using the CALLER's `opts.ConnectTimeout` — the 30-second defaulting inside
`newStoreOptions` happened on a by-value copy and is invisible here.  The
receive `<-st.ReadyNotify(ctx)` returns once the engine is ready or the
context is done, and `ctx.Err() != nil` exactly when the deadline
(connectTimeout seconds, already expired when non-positive) fell at or
before the engine's ready time.  On timeout the fresh engine is closed
once; a close failure is logged and the timeout error is returned. -/
def newStore (base : StoreOptions) (cfg : Config) (opts : ConnectOptions) (eng : Engine) :
    NewStoreResult :=
  let _storeopts := newStoreOptions base cfg opts
  match eng.newErr with
  | some e => ⟨none, some (GoErr.wrap "new store" e), [], false⟩
  | none =>
    match eng.openErr with
    | some e => ⟨none, some (GoErr.wrap "open store" e), [Ev.openCall eng.id], false⟩
    | none =>
      if opts.connectTimeout ≤ (eng.readySeconds : Int) then
        ⟨none, some (GoErr.wrap "wait for store ready" GoErr.deadlineExceeded),
          [Ev.openCall eng.id, Ev.closeCall eng.id], eng.closeErr.isSome⟩
      else
        ⟨some eng, none, [Ev.openCall eng.id], false⟩

/-- Modelled from the spec: the ready-wait bound `newStore` is specified
to apply — "blocks on a ready signal bounded by the connect timeout
(default 30s if unspecified or non-positive)".  Identical to `newStore`
except that the `WithTimeout` bound is the defaulted value.  Used only to
exhibit where the code diverges from the specified behaviour. -/
def newStoreSpecModel (base : StoreOptions) (cfg : Config) (opts : ConnectOptions) (eng : Engine) :
    NewStoreResult :=
  let _storeopts := newStoreOptions base cfg opts
  let bound : Int := if opts.connectTimeout ≤ 0 then 30 else opts.connectTimeout
  match eng.newErr with
  | some e => ⟨none, some (GoErr.wrap "new store" e), [], false⟩
  | none =>
    match eng.openErr with
    | some e => ⟨none, some (GoErr.wrap "open store" e), [Ev.openCall eng.id], false⟩
    | none =>
      if bound ≤ (eng.readySeconds : Int) then
        ⟨none, some (GoErr.wrap "wait for store ready" GoErr.deadlineExceeded),
          [Ev.openCall eng.id, Ev.closeCall eng.id], eng.closeErr.isSome⟩
      else
        ⟨some eng, none, [Ev.openCall eng.id], false⟩

/-- Response written back by a daemon handler: `returnOK` or
`returnError` (server.go lines 176-193). -/
inductive Response where
  | ok : Response
  | fail (e : GoErr) : Response
deriving DecidableEq, Repr

/-- Result of one daemon handler run: the session slot afterwards, the
response written, and the engine calls made. -/
structure HandlerResult where
  store : Option Engine
  resp : Response
  events : List Ev
deriving DecidableEq, Repr

/-- Embedding of `Server.handleConnect` (server.go lines 104-133), run
under the server mutex.  `slot` is `s.store` on entry; `decodeErr` and
`configErr` are what the external JSON decoder and `config.FromFile`
return; `eng` is the engine `newStore` would build.  Note that
`s.store, err = newStore(...)` assigns the (possibly nil) result to the
slot even when `newStore` fails. -/
def handleConnect (slot : Option Engine) (decodeErr configErr : Option GoErr)
    (base : StoreOptions) (cfg : Config) (opts : ConnectOptions) (eng : Engine) :
    HandlerResult :=
  match decodeErr with
  | some e => ⟨slot, Response.fail (GoErr.wrap "decode request" e), []⟩
  | none =>
    match configErr with
    | some e => ⟨slot, Response.fail (GoErr.wrap "load config" e), []⟩
    | none =>
      match slot with
      | some old =>
        match old.closeErr with
        | some e =>
          ⟨slot, Response.fail (GoErr.wrap "close existing store" e), [Ev.closeCall old.id]⟩
        | none =>
          let r := newStore base cfg opts eng
          match r.error with
          | some e => ⟨r.store, Response.fail e, Ev.closeCall old.id :: r.events⟩
          | none => ⟨r.store, Response.ok, Ev.closeCall old.id :: r.events⟩
      | none =>
        let r := newStore base cfg opts eng
        match r.error with
        | some e => ⟨r.store, Response.fail e, r.events⟩
        | none => ⟨r.store, Response.ok, r.events⟩

/-- Embedding of `Server.handleDisconnect` (server.go lines 136-151), run
under the server mutex: nil slot returns the sentinel `ErrNotConnected`;
otherwise the store is closed, a close error is returned with the slot
kept, and on success the slot is cleared. -/
def handleDisconnect (slot : Option Engine) : HandlerResult :=
  match slot with
  | none => ⟨none, Response.fail GoErr.notConnected, []⟩
  | some h =>
    match h.closeErr with
    | some e => ⟨some h, Response.fail e, [Ev.closeCall h.id]⟩
    | none => ⟨none, Response.ok, [Ev.closeCall h.id]⟩

/-- Embedding of `Server.handleInterfaceMetrics` (server.go lines
154-173): nil slot returns the sentinel, otherwise the result of
`s.store.WireGuard().Metrics()` is relayed (errors wrapped with
"get interface metrics"). -/
def handleInterfaceMetrics (slot : Option Engine) :
    Option Engine × Except GoErr InterfaceMetrics :=
  match slot with
  | none => (none, Except.error GoErr.notConnected)
  | some h =>
    match h.metricsErr with
    | some e => (some h, Except.error (GoErr.wrap "get interface metrics" e))
    | none => (some h, Except.ok h.metrics)

/-- Body written by `Server.returnError` (server.go lines 186-193):
`daemonError{Message: err.Error()}`. -/
def returnErrorBody (e : GoErr) : String := e.errorMessage

/-- Client-side reconstruction of a non-200 response (part_008 lines
203-209): the body is decoded into `daemonError` and returned as the
error value. -/
def decodeDaemonError (body : String) : GoErr := GoErr.daemonMsg body

/-- One full serialization round trip of an error across the socket
boundary: serve side `returnError`, client side decode. -/
def roundTripError (e : GoErr) : GoErr := decodeDaemonError (returnErrorBody e)

/-- State of the client facade (part_008 lines 56-65): the mode decided
at construction, the private session slot (only meaningful in noDaemon
mode) and the connected flag. -/
structure ClientState where
  noDaemon : Bool
  store : Option Engine
  connected : Bool
deriving DecidableEq, Repr

/-- A request issued over the socket transport by `client.do`. -/
structure SocketReq where
  method : String
  path : String
deriving DecidableEq, Repr

/-- Result of one client facade call: facade state afterwards, returned
error, and the socket requests issued. -/
structure ClientCallResult where
  state : ClientState
  error : Option GoErr
  requests : List SocketReq
deriving DecidableEq, Repr

/-- Embedding of `client.Connect` (part_008 lines 119-147), run under the
facade mutex.  `doErr` is what the relayed `c.do` call would return.  The
in-process branch returns inside the `if c.noDaemon` block and issues no
socket request. -/
def clientConnect (c : ClientState) (base : StoreOptions) (cfg : Config)
    (opts : ConnectOptions) (eng : Engine) (doErr : Option GoErr) : ClientCallResult :=
  if c.noDaemon then
    match c.store with
    | some old =>
      match old.closeErr with
      | some e => ⟨c, some (GoErr.wrap "close existing store" e), []⟩
      | none =>
        let c1 : ClientState := { c with connected := false }
        let r := newStore base cfg opts eng
        match r.error with
        | some e => ⟨{ c1 with store := r.store }, some e, []⟩
        | none => ⟨{ c1 with store := r.store, connected := true }, none, []⟩
    | none =>
      let r := newStore base cfg opts eng
      match r.error with
      | some e => ⟨{ c with store := r.store }, some e, []⟩
      | none => ⟨{ c with store := r.store, connected := true }, none, []⟩
  else
    match doErr with
    | some e => ⟨c, some e, [⟨"POST", "/connect"⟩]⟩
    | none => ⟨{ c with connected := true }, none, [⟨"POST", "/connect"⟩]⟩

/-- Embedding of `client.Disconnect` (part_008 lines 149-168).  The
`if c.noDaemon` block returns early only on the nil-store and
close-failure paths; after a successful local close it clears the slot
and then FALLS THROUGH to `c.do(ctx, POST, "/disconnect", ...)`, so the
socket request is issued even in in-process mode (the part_009 revision
has the same fall-through). -/
def clientDisconnect (c : ClientState) (doErr : Option GoErr) : ClientCallResult :=
  if c.noDaemon then
    match c.store with
    | none => ⟨c, some GoErr.notConnected, []⟩
    | some h =>
      match h.closeErr with
      | some e => ⟨c, some (GoErr.wrap "close store" e), []⟩
      | none =>
        let c1 : ClientState := { c with store := none, connected := false }
        match doErr with
        | some e => ⟨c1, some e, [⟨"POST", "/disconnect"⟩]⟩
        | none => ⟨{ c1 with connected := false }, none, [⟨"POST", "/disconnect"⟩]⟩
  else
    match doErr with
    | some e => ⟨c, some e, [⟨"POST", "/disconnect"⟩]⟩
    | none => ⟨{ c with connected := false }, none, [⟨"POST", "/disconnect"⟩]⟩

/-- Embedding of `client.InterfaceMetrics` (part_008 lines 170-181).
`doResult` is what the relayed `c.do` call would produce. -/
def clientInterfaceMetrics (c : ClientState) (doResult : Except GoErr InterfaceMetrics) :
    ClientState × Except GoErr InterfaceMetrics × List SocketReq :=
  if c.noDaemon then
    match c.store with
    | none => (c, Except.error GoErr.notConnected, [])
    | some h =>
      match h.metricsErr with
      | some e => (c, Except.error e, [])
      | none => (c, Except.ok h.metrics, [])
  else
    (c, doResult, [⟨"GET", "/interface-metrics"⟩])

/-- Facts about the process environment that the `NewClient` mode
decision reads: the platform, whether the well-known socket path exists,
the POSIX uid, and the outcome of `user.Current()`. -/
structure ProcEnv where
  isWindows : Bool
  socketExists : Bool
  uid : Int
  currentUserErr : Option GoErr
  currentUserName : String
deriving DecidableEq, Repr

/-- Go `os.IsNotExist`: true only for a not-exist error; in particular
`os.IsNotExist(nil) = false`. -/
def isNotExist : Option GoErr → Bool
  | some GoErr.fsNotExist => true
  | _ => false

/-- The error `os.Stat(socketPath)` yields in the given environment. -/
def statSocketErr (env : ProcEnv) : Option GoErr :=
  if env.socketExists then none else some GoErr.fsNotExist

/-- Embedding of the `noDaemon` decision closure in `NewClient` (part_008
lines 72-82; part_009 lines 95-105 is identical).  The Go source reads:
`_, err := os.Stat(socketPath)` then, on Windows,
`user, err := user.Current()` — this `:=` declares a NEW `err` that
SHADOWS the stat error, so the subsequent `os.IsNotExist(err)` inspects
the (nil) user-lookup error rather than the stat error.  The shadowing is
reproduced faithfully here via the inner `err` binding. -/
def noDaemonMode (env : ProcEnv) : Bool :=
  let err := statSocketErr env
  if env.isWindows then
    let err := env.currentUserErr
    if err = none then decide (env.currentUserName = "SYSTEM") && isNotExist err
    else false
  else
    decide (env.uid = 0) && isNotExist err

/-- Modelled from the spec: mode-selection rule P5 — "in-process mode is
selected only when the process is running with full (root/administrator)
privilege AND the well-known socket does not currently exist", with full
privilege meaning uid 0 on POSIX and the SYSTEM account on Windows. -/
def noDaemonModeSpecModel (env : ProcEnv) : Bool :=
  (if env.isWindows then decide (env.currentUserName = "SYSTEM")
   else decide (env.uid = 0)) && !env.socketExists

/-- A neutral `store.NewOptions()` baseline for concrete evaluations. -/
def baseOpts : StoreOptions :=
  { raftInMemory := false, raftListenAddress := "", raftLeaveOnShutdown := false,
    raftShutdownTimeoutSec := 0, meshNoIPv4 := false, meshNoIPv6 := false,
    meshGRPCPort := 0, meshJoinTimeoutSec := 0, wgInterfaceName := "",
    wgListenPort := 0, wgForceTUN := false, wgPersistentKeepAliveSec := 0,
    auth := ⟨none, none, none⟩, tls := ⟨false, "", false, false⟩ }

/-- A concrete loaded profile configuration for concrete evaluations. -/
def sampleCfg : Config :=
  ⟨fun _ => ⟨"user1", "cluster1"⟩,
   fun _ => ⟨"", "", "", "", "", ""⟩,
   fun _ => ⟨false, "", false, false⟩⟩

/-- Connect options with `connectTimeout = 0` (the "use the default"
request per the field's doc comment). -/
def zeroTimeoutOpts : ConnectOptions :=
  ⟨"default", "wg0", false, 51820, 9443, 8443, false, false, false, 0, 0⟩

/-- Connect options with an explicit 30-second timeout. -/
def thirtyTimeoutOpts : ConnectOptions :=
  ⟨"default", "wg0", false, 51820, 9443, 8443, false, false, false, 0, 30⟩

/-- An engine whose ready signal fires 29 seconds in (just under the
specified 30-second default) and whose other calls all succeed. -/
def slowReadyEngine : Engine := ⟨1, none, none, 29, none, none, ⟨"wg0", 0, 0⟩⟩

/-- An engine that is ready after one second. -/
def quickEngine : Engine := ⟨3, none, none, 1, none, none, ⟨"wg0", 7, 9⟩⟩

/-- An already-established session handle whose `Close` succeeds. -/
def liveHandle : Engine := ⟨2, none, none, 0, none, none, ⟨"wg0", 100, 200⟩⟩

/-- A facade in in-process (noDaemon) mode holding a live session. -/
def inProcClient : ClientState := ⟨true, some liveHandle, true⟩

/-- The error a socket dial produces when no daemon is listening. -/
def dialFailure : GoErr := GoErr.external "dial unix: no such file or directory"

/-- C1: the claim states that with `options.connectTimeout = 0` the
ready-wait is bounded by the default of 30 seconds.  The code instead
passes the caller's literal 0 to `context.WithTimeout` (store.go line
39): the 30-second default set in `newStoreOptions` lands only on the
by-value copy and on `Mesh.JoinTimeout`.  At an engine that becomes
ready after 29 seconds, `newStore` therefore returns a ready-wait
timeout, while the spec-modelled variant (30-second bound) succeeds;
`meshJoinTimeoutSec = 30` shows the default was applied, just not to the
ready-wait. -/
theorem c1_zero_connect_timeout_not_defaulted :
    (newStore baseOpts sampleCfg zeroTimeoutOpts slowReadyEngine).error
      = some (GoErr.wrap "wait for store ready" GoErr.deadlineExceeded)
    ∧ (newStore baseOpts sampleCfg zeroTimeoutOpts slowReadyEngine).store = none
    ∧ (newStoreOptions baseOpts sampleCfg zeroTimeoutOpts).meshJoinTimeoutSec = 30
    ∧ (newStoreSpecModel baseOpts sampleCfg zeroTimeoutOpts slowReadyEngine).error = none
    ∧ (newStoreSpecModel baseOpts sampleCfg zeroTimeoutOpts slowReadyEngine).store
        = some slowReadyEngine := by
  refine ⟨by decide, by decide, by decide, by decide, by decide⟩

/-- C3: the claim states that in in-process mode no operation issues a
socket request.  `client.Connect` and `client.InterfaceMetrics` indeed
return inside the `noDaemon` branch, but `client.Disconnect` (part_008
lines 149-168) falls through after a successful local close and issues
`POST /disconnect` over the socket; with no daemon listening the dial
fails and that failure becomes the returned error even though the local
session was already torn down. -/
theorem c3_inprocess_disconnect_issues_socket_request :
    (clientDisconnect inProcClient (some dialFailure)).requests = [⟨"POST", "/disconnect"⟩]
    ∧ (clientDisconnect inProcClient (some dialFailure)).error = some dialFailure
    ∧ (clientDisconnect inProcClient (some dialFailure)).state.store = none
    ∧ (clientConnect inProcClient baseOpts sampleCfg thirtyTimeoutOpts quickEngine
        none).requests = []
    ∧ (clientInterfaceMetrics inProcClient (Except.ok ⟨"", 0, 0⟩)).2.2 = [] := by
  refine ⟨by decide, by decide, by decide, by decide, by decide⟩

/-- An environment in which the claim and the code disagree: Windows, the
SYSTEM account, socket path absent. -/
def windowsSystemEnv : ProcEnv := ⟨true, false, 500, none, "SYSTEM"⟩

/-- C7: the claim states in-process mode is selected exactly when the
process has full privilege and the socket path does not exist.  On
Windows the `user, err := user.Current()` short declaration shadows the
`os.Stat` error, so `os.IsNotExist(err)` inspects the nil user-lookup
error and is always false: the SYSTEM account with no socket still gets
daemon-relay mode.  On POSIX the code agrees with the rule. -/
theorem c7_windows_mode_selection_shadowed :
    noDaemonMode windowsSystemEnv = false
    ∧ noDaemonModeSpecModel windowsSystemEnv = true
    ∧ (∀ env : ProcEnv, env.isWindows = false →
        noDaemonMode env = noDaemonModeSpecModel env)
    ∧ (∀ env : ProcEnv, env.isWindows = true → noDaemonMode env = false) := by
  refine ⟨by decide, by decide, ?_, ?_⟩
  · intro env h
    cases env with
    | mk w se uid ue un =>
      cases h
      cases se <;>
        simp [noDaemonMode, noDaemonModeSpecModel, statSocketErr, isNotExist]
  · intro env h
    cases env with
    | mk w se uid ue un =>
      cases h
      cases ue <;>
        simp [noDaemonMode, statSocketErr, isNotExist]

/-- C8: `IsNotConnected` returns true exactly when the error is the
sentinel itself or its message equals the fixed "not connected" text; in
particular the `daemonError` reconstructed from a response body after a
serialization round trip is still recognized. -/
theorem c8_not_connected_recognition :
    ∀ e : GoErr,
      (IsNotConnected (some e) = PanicOr.ok true
        ↔ e = GoErr.notConnected ∨ e.errorMessage = "not connected")
      ∧ roundTripError GoErr.notConnected = GoErr.daemonMsg "not connected"
      ∧ IsNotConnected (some (roundTripError GoErr.notConnected)) = PanicOr.ok true := by
  intro e
  refine ⟨?_, by decide, by decide⟩
  by_cases h : e = GoErr.notConnected
  · subst h
    simp [IsNotConnected]
  · have hs : ¬ (some e = some GoErr.notConnected) := by
      intro hc
      exact h (Option.some.inj hc)
    constructor
    · intro hok
      simp only [IsNotConnected, if_neg hs] at hok
      right
      have := PanicOr.ok.inj hok
      exact of_decide_eq_true this
    · intro hcase
      rcases hcase with hc | hm
      · exact absurd hc h
      · simp only [IsNotConnected, if_neg hs]
        have : e.errorMessage = GoErr.notConnected.errorMessage := hm
        simp [this]

/-- C10: `IsNotConnected` panics on the nil error interface (the identity
comparison with the sentinel fails, then `err.Error()` dereferences nil)
and returns a boolean on every non-nil error. -/
theorem c10_nil_error_panics :
    IsNotConnected none
      = PanicOr.panicked "invalid memory address or nil pointer dereference"
    ∧ ∀ e : GoErr, ∃ b : Bool, IsNotConnected (some e) = PanicOr.ok b := by
  constructor
  · decide
  · intro e
    by_cases h : some e = some GoErr.notConnected
    · exact ⟨true, by simp [IsNotConnected, h]⟩
    · refine ⟨decide (e.errorMessage = GoErr.notConnected.errorMessage), ?_⟩
      simp only [IsNotConnected, if_neg h]

/-- Case analysis on the outcome of `newStore`: either it fails and the
returned handle is nil, or it succeeds and the returned handle is exactly
the engine it opened. -/
theorem newStore_cases (base : StoreOptions) (cfg : Config) (opts : ConnectOptions)
    (eng : Engine) :
    ((newStore base cfg opts eng).error ≠ none ∧ (newStore base cfg opts eng).store = none)
    ∨ ((newStore base cfg opts eng).error = none
        ∧ (newStore base cfg opts eng).store = some eng) := by
  simp only [newStore]
  cases eng.newErr with
  | some e => simp
  | none =>
    cases eng.openErr with
    | some e => simp
    | none =>
      by_cases h : opts.connectTimeout ≤ (eng.readySeconds : Int) <;> simp [h]

/-- The calls `newStore` makes touch only the engine it was given: it
never closes a handle with a different id. -/
theorem newStore_no_foreign_close (base : StoreOptions) (cfg : Config)
    (opts : ConnectOptions) (eng : Engine) (n : Nat) (h : n ≠ eng.id) :
    (newStore base cfg opts eng).events.count (Ev.closeCall n) = 0 := by
  simp only [newStore]
  cases eng.newErr with
  | some e => simp
  | none =>
    cases eng.openErr with
    | some e => simp
    | none =>
      by_cases ht : opts.connectTimeout ≤ (eng.readySeconds : Int) <;>
        simp [ht, List.count_cons, h]

/-- C2: a Connect that gets past request decoding and config loading
while a session is active closes the existing handle exactly once, as the
first engine call of the handler; if that close fails, the handler
reports the wrapped close error, keeps the old handle in the slot and
never attempts to open the new engine. -/
theorem c2_existing_handle_closed_once (old eng : Engine) (base : StoreOptions)
    (cfg : Config) (opts : ConnectOptions) (hid : old.id ≠ eng.id) :
    ((handleConnect (some old) none none base cfg opts eng).events.count
        (Ev.closeCall old.id) = 1)
    ∧ ((handleConnect (some old) none none base cfg opts eng).events.head?
        = some (Ev.closeCall old.id))
    ∧ (∀ e, old.closeErr = some e →
        handleConnect (some old) none none base cfg opts eng
          = ⟨some old, Response.fail (GoErr.wrap "close existing store" e),
             [Ev.closeCall old.id]⟩) := by
  cases hce : old.closeErr with
  | some e =>
    refine ⟨?_, ?_, ?_⟩
    · simp [handleConnect, hce, List.count_cons]
    · simp [handleConnect, hce]
    · intro e' he'
      injection he' with hee
      subst hee
      simp [handleConnect, hce]
  | none =>
    have hcount := newStore_no_foreign_close base cfg opts eng old.id hid
    refine ⟨?_, ?_, ?_⟩
    · cases hr : (newStore base cfg opts eng).error with
      | some e =>
        simp only [handleConnect, hce, hr]
        simp [List.count_cons, hcount]
      | none =>
        simp only [handleConnect, hce, hr]
        simp [List.count_cons, hcount]
    · cases hr : (newStore base cfg opts eng).error with
      | some e => simp only [handleConnect, hce, hr, List.head?]
      | none => simp only [handleConnect, hce, hr, List.head?]
    · intro e' he'
      exact absurd he' (by simp)

/-- C2 witness: at a live handle (id 2) and a fresh engine (id 3) the
handler closes the old handle exactly once and first. -/
theorem c2_witness :
    ((handleConnect (some liveHandle) none none baseOpts sampleCfg thirtyTimeoutOpts
        quickEngine).events.count (Ev.closeCall liveHandle.id) = 1)
    ∧ ((handleConnect (some liveHandle) none none baseOpts sampleCfg thirtyTimeoutOpts
        quickEngine).events.head? = some (Ev.closeCall liveHandle.id))
    ∧ (∀ e, liveHandle.closeErr = some e →
        handleConnect (some liveHandle) none none baseOpts sampleCfg thirtyTimeoutOpts
            quickEngine
          = ⟨some liveHandle, Response.fail (GoErr.wrap "close existing store" e),
             [Ev.closeCall liveHandle.id]⟩) :=
  c2_existing_handle_closed_once liveHandle quickEngine baseOpts sampleCfg
    thirtyTimeoutOpts (by decide)

/-- C4: when a Connect or Disconnect fails, the session slot is unchanged
in every case except the one where an active session's close succeeded
and the subsequent open failed, in which case the slot ends empty
(Disconnected). -/
theorem c4_failure_state_transitions (slot : Option Engine)
    (decodeErr configErr : Option GoErr) (base : StoreOptions) (cfg : Config)
    (opts : ConnectOptions) (eng : Engine) :
    ((handleConnect slot decodeErr configErr base cfg opts eng).resp ≠ Response.ok →
      ((decodeErr = none ∧ configErr = none
          ∧ (∀ old, slot = some old → old.closeErr = none)
          ∧ (newStore base cfg opts eng).error ≠ none)
        → (handleConnect slot decodeErr configErr base cfg opts eng).store = none)
      ∧ (¬(decodeErr = none ∧ configErr = none
            ∧ (∀ old, slot = some old → old.closeErr = none)
            ∧ (newStore base cfg opts eng).error ≠ none)
        → (handleConnect slot decodeErr configErr base cfg opts eng).store = slot))
    ∧ ((handleDisconnect slot).resp ≠ Response.ok → (handleDisconnect slot).store = slot) := by
  constructor
  · intro hfail
    cases hd : decodeErr with
    | some e =>
      refine ⟨fun hcond => absurd hcond.1 (by simp [hd]), fun _ => ?_⟩
      simp [handleConnect, hd]
    | none =>
      cases hcfg : configErr with
      | some e =>
        refine ⟨fun hcond => absurd hcond.2.1 (by simp [hcfg]), fun _ => ?_⟩
        simp [handleConnect, hd, hcfg]
      | none =>
        cases hs : slot with
        | none =>
          rcases newStore_cases base cfg opts eng with ⟨herr, hst⟩ | ⟨herr, hst⟩
          · cases hr : (newStore base cfg opts eng).error with
            | none => exact absurd hr herr
            | some e =>
              constructor
              · intro _
                simp only [handleConnect, hd, hcfg, hs, hr]
                exact hst
              · intro hncond
                refine absurd ⟨rfl, rfl, ?_, ?_⟩ hncond
                · intro o ho
                  exact absurd ho (by simp)
                · simp
          · rw [hd, hcfg, hs] at hfail
            simp only [handleConnect, herr] at hfail
            exact absurd rfl hfail
        | some old =>
          cases hce : old.closeErr with
          | some e =>
            constructor
            · intro hcond
              exact absurd hce (by simp [hcond.2.2.1 old rfl])
            · intro _
              simp [handleConnect, hd, hcfg, hs, hce]
          | none =>
            rcases newStore_cases base cfg opts eng with ⟨herr, hst⟩ | ⟨herr, hst⟩
            · cases hr : (newStore base cfg opts eng).error with
              | none => exact absurd hr herr
              | some e =>
                constructor
                · intro _
                  simp only [handleConnect, hd, hcfg, hs, hce, hr]
                  exact hst
                · intro hncond
                  refine absurd ⟨rfl, rfl, ?_, ?_⟩ hncond
                  · intro o ho
                    injection ho with h2
                    subst h2
                    exact hce
                  · simp
            · rw [hd, hcfg, hs] at hfail
              simp only [handleConnect, hce, herr] at hfail
              exact absurd rfl hfail
  · intro hfail
    cases hs : slot with
    | none => simp [handleDisconnect]
    | some h =>
      cases hce : h.closeErr with
      | some e => simp [handleDisconnect, hce]
      | none =>
        rw [hs] at hfail
        simp only [handleDisconnect, hce] at hfail
        exact absurd rfl hfail

/-- An engine whose open fails (the mesh join is refused). -/
def failingOpenEngine : Engine :=
  ⟨4, none, some (GoErr.external "join: connection refused"), 0, none, none, ⟨"", 0, 0⟩⟩

/-- C4 witness: with a live session whose close succeeds and an engine
whose open fails, the failing Connect leaves the slot empty. -/
theorem c4_witness :
    (handleConnect (some liveHandle) none none baseOpts sampleCfg thirtyTimeoutOpts
        failingOpenEngine).store = none :=
  ((c4_failure_state_transitions (some liveHandle) none none baseOpts sampleCfg
      thirtyTimeoutOpts failingOpenEngine).1 (by decide)).1
    ⟨rfl, rfl, fun old h => by cases h; rfl, by decide⟩

/-- C5: when the ready-wait exceeds the connect timeout, `newStore`
returns the timeout error wrapped as "wait for store ready: ...", closes
the freshly opened engine exactly once (with a close failure only
logged, never replacing the returned error — note the conclusion does
not depend on `eng.closeErr`), and the Connect handler leaves the
session slot empty. -/
theorem c5_ready_timeout_cleanup (slot : Option Engine) (base : StoreOptions)
    (cfg : Config) (opts : ConnectOptions) (eng : Engine)
    (hnew : eng.newErr = none) (hopen : eng.openErr = none)
    (htime : opts.connectTimeout ≤ (eng.readySeconds : Int))
    (hclose : ∀ old, slot = some old → old.closeErr = none) :
    (newStore base cfg opts eng).error
      = some (GoErr.wrap "wait for store ready" GoErr.deadlineExceeded)
    ∧ (newStore base cfg opts eng).store = none
    ∧ (newStore base cfg opts eng).events.count (Ev.closeCall eng.id) = 1
    ∧ (newStore base cfg opts eng).loggedCloseFailure = eng.closeErr.isSome
    ∧ (handleConnect slot none none base cfg opts eng).store = none
    ∧ (handleConnect slot none none base cfg opts eng).resp
        = Response.fail (GoErr.wrap "wait for store ready" GoErr.deadlineExceeded) := by
  have hns : newStore base cfg opts eng
      = ⟨none, some (GoErr.wrap "wait for store ready" GoErr.deadlineExceeded),
         [Ev.openCall eng.id, Ev.closeCall eng.id], eng.closeErr.isSome⟩ := by
    simp only [newStore, hnew, hopen, if_pos htime]
  refine ⟨by rw [hns], by rw [hns], ?_, by rw [hns], ?_, ?_⟩
  · rw [hns]
    simp [List.count_cons]
  · cases hs : slot with
    | none => simp [handleConnect, hns]
    | some old =>
      have hce := hclose old hs
      simp [handleConnect, hce, hns]
  · cases hs : slot with
    | none => simp [handleConnect, hns]
    | some old =>
      have hce := hclose old hs
      simp [handleConnect, hce, hns]

/-- An engine that would only become ready 45 seconds in and whose
best-effort close also fails. -/
def lateEngine : Engine :=
  ⟨5, none, none, 45, some (GoErr.external "close failed"), none, ⟨"", 0, 0⟩⟩

/-- C5 witness: a 30-second Connect against an engine ready at 45s, on
top of a live session, times out, closes the new engine once (logging
the close failure without masking the timeout error) and empties the
slot. -/
theorem c5_witness :
    (newStore baseOpts sampleCfg thirtyTimeoutOpts lateEngine).error
      = some (GoErr.wrap "wait for store ready" GoErr.deadlineExceeded)
    ∧ (newStore baseOpts sampleCfg thirtyTimeoutOpts lateEngine).store = none
    ∧ (newStore baseOpts sampleCfg thirtyTimeoutOpts lateEngine).events.count
        (Ev.closeCall lateEngine.id) = 1
    ∧ (newStore baseOpts sampleCfg thirtyTimeoutOpts lateEngine).loggedCloseFailure
        = lateEngine.closeErr.isSome
    ∧ (handleConnect (some liveHandle) none none baseOpts sampleCfg thirtyTimeoutOpts
        lateEngine).store = none
    ∧ (handleConnect (some liveHandle) none none baseOpts sampleCfg thirtyTimeoutOpts
        lateEngine).resp
        = Response.fail (GoErr.wrap "wait for store ready" GoErr.deadlineExceeded) :=
  c5_ready_timeout_cleanup (some liveHandle) baseOpts sampleCfg thirtyTimeoutOpts
    lateEngine rfl rfl (by decide) (fun old h => by cases h; rfl)

/-- C6: a Disconnect while the session slot is empty returns the
distinguished `errNotConnected` sentinel and changes nothing, on the
daemon side (`handleDisconnect` with a nil slot) and on the in-process
facade side (`client.Disconnect` with `noDaemon` set and a nil private
store, which returns before reaching the socket call). -/
theorem c6_disconnect_when_empty (c : ClientState) (doErr : Option GoErr)
    (hnd : c.noDaemon = true) (hs : c.store = none) :
    (handleDisconnect none).resp = Response.fail GoErr.notConnected
    ∧ (handleDisconnect none).store = none
    ∧ (handleDisconnect none).events = []
    ∧ clientDisconnect c doErr = ⟨c, some GoErr.notConnected, []⟩ := by
  refine ⟨rfl, rfl, rfl, ?_⟩
  simp [clientDisconnect, hnd, hs]

/-- C6 witness: a disconnected in-process facade, asked to Disconnect
while no daemon is reachable, still just reports the sentinel. -/
theorem c6_witness :
    (handleDisconnect none).resp = Response.fail GoErr.notConnected
    ∧ (handleDisconnect none).store = none
    ∧ (handleDisconnect none).events = []
    ∧ clientDisconnect ⟨true, none, false⟩ (some dialFailure)
        = ⟨⟨true, none, false⟩, some GoErr.notConnected, []⟩ :=
  c6_disconnect_when_empty ⟨true, none, false⟩ (some dialFailure) rfl rfl

/-- Atomic instructions of a daemon handler, for the interleaving model
of the server's mutex discipline.  `lock`/`unlock` are `s.mu.Lock()` and
the deferred `s.mu.Unlock()`; `work` is any body step (request decoding,
config loading, engine calls, the blocking ready-wait, writing the
response), which carries NO lock requirement of its own — exclusivity
must emerge from the program shape. -/
inductive Instr where
  | lock : Instr
  | unlock : Instr
  | work (tag : String) : Instr
deriving DecidableEq, Repr

/-- The `handleConnect` body (server.go lines 104-133) as an instruction
sequence: the mutex is acquired first, released by `defer` at return, and
the blocking ready-wait of `newStore` happens strictly in between. -/
def connectProg : List Instr :=
  [Instr.lock, Instr.work "decodeRequest", Instr.work "loadConfig",
   Instr.work "closeExisting", Instr.work "openStore", Instr.work "waitReady",
   Instr.work "respond", Instr.unlock]

/-- The `handleDisconnect` body (server.go lines 136-151). -/
def disconnectProg : List Instr :=
  [Instr.lock, Instr.work "closeStore", Instr.work "respond", Instr.unlock]

/-- The `handleInterfaceMetrics` body (server.go lines 154-173). -/
def metricsProg : List Instr :=
  [Instr.lock, Instr.work "readMetrics", Instr.work "respond", Instr.unlock]

/-- State of the daemon process: each request-handling thread's remaining
instructions and the current owner of the single mutex. -/
structure Sys (n : Nat) where
  rem : Fin n → List Instr
  holder : Option (Fin n)

/-- One step by thread `i`: `Lock` succeeds only when the mutex is free,
`Unlock` only for the owner, and body steps run unconditionally (the
model itself imposes no exclusion on them). -/
inductive TStep {n : Nat} (i : Fin n) : Sys n → Sys n → Prop where
  | lockStep (s : Sys n) (rest : List Instr)
      (hrem : s.rem i = Instr.lock :: rest) (hfree : s.holder = none) :
      TStep i s ⟨Function.update s.rem i rest, some i⟩
  | unlockStep (s : Sys n) (rest : List Instr)
      (hrem : s.rem i = Instr.unlock :: rest) (hheld : s.holder = some i) :
      TStep i s ⟨Function.update s.rem i rest, none⟩
  | workStep (s : Sys n) (tag : String) (rest : List Instr)
      (hrem : s.rem i = Instr.work tag :: rest) :
      TStep i s ⟨Function.update s.rem i rest, s.holder⟩

/-- Interleaving: some thread steps. -/
def SysStep {n : Nat} (s t : Sys n) : Prop := ∃ i, TStep i s t

/-- States reachable from the initial state in which every thread is at
the start of its handler and the mutex is free. -/
def Reach {n : Nat} (progs : Fin n → List Instr) (s : Sys n) : Prop :=
  Relation.ReflTransGen SysStep ⟨progs, none⟩ s

/-- Thread `i` is inside its handler: it has consumed at least one
instruction and has not finished. -/
def Midway {n : Nat} (progs : Fin n → List Instr) (s : Sys n) (i : Fin n) : Prop :=
  s.rem i ≠ progs i ∧ s.rem i ≠ []

/-- A handler program acquires the mutex as its very first action. -/
def lockFirst (p : List Instr) : Bool :=
  p.head? = some Instr.lock

/-- A handler program releases the mutex only as its very last action:
every suffix beginning with `unlock` has nothing after it. -/
def unlockOnlyLast (p : List Instr) : Bool :=
  p.tails.all fun t =>
    match t with
    | Instr.unlock :: rest => rest.isEmpty
    | _ => true

/-- Extraction lemma for `unlockOnlyLast`. -/
theorem unlockOnlyLast_suffix {p rest : List Instr} (h : unlockOnlyLast p = true)
    (hs : (Instr.unlock :: rest) <:+ p) : rest = [] := by
  have hmem : (Instr.unlock :: rest) ∈ p.tails := (List.mem_tails _ _).mpr hs
  have := (List.all_eq_true.mp h) _ hmem
  simpa [List.isEmpty_iff] using this

/-- The inductive invariant: every thread's remaining program is a suffix
of its handler, and any thread that is midway through its handler owns
the mutex. -/
def SysInv {n : Nat} (progs : Fin n → List Instr) (s : Sys n) : Prop :=
  (∀ i, s.rem i <:+ progs i) ∧ (∀ i, Midway progs s i → s.holder = some i)

/-- The invariant holds initially. -/
theorem sysInv_init {n : Nat} (progs : Fin n → List Instr) :
    SysInv progs ⟨progs, none⟩ := by
  constructor
  · intro i
    exact List.suffix_refl _
  · intro i hmid
    exact absurd rfl hmid.1

/-- The invariant is preserved by every step, for handler programs that
lock first and unlock only last. -/
theorem sysInv_step {n : Nat} (progs : Fin n → List Instr)
    (hwf : ∀ i, lockFirst (progs i) = true ∧ unlockOnlyLast (progs i) = true)
    {s t : Sys n} (hinv : SysInv progs s) (hst : SysStep s t) : SysInv progs t := by
  obtain ⟨i, hstep⟩ := hst
  obtain ⟨hsuf, hmid⟩ := hinv
  cases hstep with
  | lockStep rest hrem hfree =>
    constructor
    · intro j
      by_cases hji : j = i
      · subst hji
        simp only [Function.update_same]
        exact (List.suffix_cons Instr.lock rest).trans (hrem ▸ hsuf j)
      · simpa [Function.update_noteq hji] using hsuf j
    · intro j hmj
      by_cases hji : j = i
      · simp [hji]
      · exfalso
        have hmj' : Midway progs s j := by
          simpa [Midway, Function.update_noteq hji] using hmj
        have := hmid j hmj'
        rw [hfree] at this
        cases this
  | unlockStep rest hrem hheld =>
    have hrest : rest = [] :=
      unlockOnlyLast_suffix (hwf i).2 (hrem ▸ hsuf i)
    constructor
    · intro j
      by_cases hji : j = i
      · subst hji
        simp only [Function.update_same]
        exact (List.suffix_cons Instr.unlock rest).trans (hrem ▸ hsuf j)
      · simpa [Function.update_noteq hji] using hsuf j
    · intro j hmj
      exfalso
      by_cases hji : j = i
      · subst hji
        have : rest ≠ [] := by
          simpa [Midway, Function.update_same] using hmj.2
        exact this hrest
      · have hmj' : Midway progs s j := by
          simpa [Midway, Function.update_noteq hji] using hmj
        have := hmid j hmj'
        rw [hheld] at this
        injection this with h2
        exact hji h2.symm
  | workStep tag rest hrem =>
    constructor
    · intro j
      by_cases hji : j = i
      · subst hji
        simp only [Function.update_same]
        exact (List.suffix_cons (Instr.work tag) rest).trans (hrem ▸ hsuf j)
      · simpa [Function.update_noteq hji] using hsuf j
    · intro j hmj
      by_cases hji : j = i
      · subst hji
        have hmi : Midway progs s j := by
          refine ⟨?_, by simp [hrem]⟩
          intro hcontra
          have hlf := (hwf j).1
          rw [← hcontra, hrem] at hlf
          simp [lockFirst] at hlf
        exact hmid j hmi
      · have hmj' : Midway progs s j := by
          simpa [Midway, Function.update_noteq hji] using hmj
        exact hmid j hmj'

/-- The invariant holds at every reachable state. -/
theorem sysInv_reach {n : Nat} (progs : Fin n → List Instr)
    (hwf : ∀ i, lockFirst (progs i) = true ∧ unlockOnlyLast (progs i) = true)
    {s : Sys n} (hreach : Reach progs s) : SysInv progs s := by
  induction hreach with
  | refl => exact sysInv_init progs
  | tail _ hstep ih => exact sysInv_step progs hwf ih hstep

/-- The three daemon handlers as the thread pool of the model. -/
def serverProgs : Fin 3 → List Instr :=
  ![connectProg, disconnectProg, metricsProg]

/-- C9: in every state reachable by interleaving the three handlers
under the mutex semantics, (a) at most one handler is ever inside its
critical section (between its `mu.Lock()` and its deferred
`mu.Unlock()`), and (b) while any handler is inside — in particular
while Connect sits in its blocking ready-wait — any thread whose next
action is acquiring the mutex (a newly arrived Disconnect or Metrics
request) can take no step at all until the in-flight handler resolves.
The final conjuncts check, directly against the handler programs, that
each handler locks first, that Connect unlocks only at the end, and that
the ready-wait lies inside Connect's critical section. -/
theorem c9_handlers_serialized (s : Sys 3) (hreach : Reach serverProgs s) :
    (∀ i j : Fin 3, Midway serverProgs s i → Midway serverProgs s j → i = j)
    ∧ (∀ i j : Fin 3, Midway serverProgs s i → (s.rem j).head? = some Instr.lock →
        ∀ t, ¬ TStep j s t)
    ∧ connectProg.head? = some Instr.lock
    ∧ connectProg.getLast? = some Instr.unlock
    ∧ Instr.work "waitReady" ∈ connectProg
    ∧ disconnectProg.head? = some Instr.lock
    ∧ metricsProg.head? = some Instr.lock := by
  have hwf : ∀ i : Fin 3,
      lockFirst (serverProgs i) = true ∧ unlockOnlyLast (serverProgs i) = true := by
    decide
  have hinv := sysInv_reach serverProgs hwf hreach
  refine ⟨?_, ?_, by decide, by decide, by decide, by decide, by decide⟩
  · intro i j hi hj
    have h1 := hinv.2 i hi
    have h2 := hinv.2 j hj
    rw [h1] at h2
    exact Option.some.inj h2
  · intro i j hi hhead t hstep
    have h1 := hinv.2 i hi
    cases hstep with
    | lockStep rest hrem hfree =>
      rw [h1] at hfree
      cases hfree
    | unlockStep rest hrem hheld =>
      rw [hrem] at hhead
      simp at hhead
    | workStep tag rest hrem =>
      rw [hrem] at hhead
      simp at hhead

/-- Remaining program of the Connect thread after it has taken the lock
and decoded the request. -/
def connectMid : List Instr :=
  [Instr.work "loadConfig", Instr.work "closeExisting", Instr.work "openStore",
   Instr.work "waitReady", Instr.work "respond", Instr.unlock]

/-- A state with the Connect handler inside its critical section and the
Disconnect and Metrics handlers still waiting to lock. -/
def blockedSys : Sys 3 :=
  ⟨![connectMid, disconnectProg, metricsProg], some 0⟩

/-- The blocked state is reachable: the Connect thread locks, then
decodes the request, while the other threads have not moved. -/
theorem blockedSys_reach : Reach serverProgs blockedSys := by
  have hupd1 : Function.update serverProgs (0 : Fin 3) (Instr.work "decodeRequest" :: connectMid)
      = ![Instr.work "decodeRequest" :: connectMid, disconnectProg, metricsProg] := by
    funext k
    fin_cases k <;> simp [serverProgs, Function.update]
  have hupd2 : Function.update
      (![Instr.work "decodeRequest" :: connectMid, disconnectProg, metricsProg] :
        Fin 3 → List Instr) (0 : Fin 3) connectMid
      = ![connectMid, disconnectProg, metricsProg] := by
    funext k
    fin_cases k <;> simp [Function.update]
  have t1 : TStep (0 : Fin 3) ⟨serverProgs, none⟩
      ⟨![Instr.work "decodeRequest" :: connectMid, disconnectProg, metricsProg], some 0⟩ := by
    have := TStep.lockStep (i := (0 : Fin 3)) (s := ⟨serverProgs, none⟩)
      (Instr.work "decodeRequest" :: connectMid) rfl rfl
    rwa [hupd1] at this
  have t2 : TStep (0 : Fin 3)
      ⟨![Instr.work "decodeRequest" :: connectMid, disconnectProg, metricsProg], some 0⟩
      blockedSys := by
    have := TStep.workStep (i := (0 : Fin 3))
      (s := ⟨![Instr.work "decodeRequest" :: connectMid, disconnectProg, metricsProg], some 0⟩)
      "decodeRequest" connectMid rfl
    rwa [hupd2] at this
  exact Relation.ReflTransGen.tail (Relation.ReflTransGen.tail Relation.ReflTransGen.refl
    ⟨0, t1⟩) ⟨0, t2⟩

/-- C9 witness: at the concrete reachable state in which Connect is
mid-handler (about to reach the ready-wait) and Disconnect and Metrics
are poised on the lock, no other handler can interleave. -/
theorem c9_witness :
    (∀ i j : Fin 3, Midway serverProgs blockedSys i → Midway serverProgs blockedSys j → i = j)
    ∧ (∀ i j : Fin 3, Midway serverProgs blockedSys i →
        (blockedSys.rem j).head? = some Instr.lock → ∀ t, ¬ TStep j blockedSys t)
    ∧ connectProg.head? = some Instr.lock
    ∧ connectProg.getLast? = some Instr.unlock
    ∧ Instr.work "waitReady" ∈ connectProg
    ∧ disconnectProg.head? = some Instr.lock
    ∧ metricsProg.head? = some Instr.lock :=
  c9_handlers_serialized blockedSys blockedSys_reach

/-- C7 witness: on POSIX (a non-root user with the socket present, the
common desktop case) the code and the specified rule agree. -/
theorem c7_witness :
    noDaemonMode ⟨false, true, 1000, none, "alice"⟩
      = noDaemonModeSpecModel ⟨false, true, 1000, none, "alice"⟩ :=
  c7_windows_mode_selection_shadowed.2.2.1 ⟨false, true, 1000, none, "alice"⟩ rfl

/-- C8 witness: the daemonError carrying the fixed message, as decoded
from a response body, is recognized as NotConnected. -/
theorem c8_witness :
    IsNotConnected (some (GoErr.daemonMsg "not connected")) = PanicOr.ok true :=
  (c8_not_connected_recognition (GoErr.daemonMsg "not connected")).1.mpr (Or.inr rfl)

/-- C10 witness: a concrete non-nil error yields a boolean without
panicking. -/
theorem c10_witness :
    ∃ b : Bool, IsNotConnected (some (GoErr.external "boom")) = PanicOr.ok b :=
  c10_nil_error_panics.2 (GoErr.external "boom")

end Webmesh
